import Mathlib

/-!
# Shallow embedding of the Keysight tunable-laser VISA/SCPI adapter

This file embeds `src/pymodaq_plugins_template/hardware/tunable_laser.py`:
the `TunableLaser` class, its low-level transport primitives
(`_write`, `_read`, `_read_number`) and its property accessors.

Modelling conventions:
* Python floats are modelled as rationals (`ℚ`); the unit factor `1e9`
  is the exact rational `1000000000`.
* SCPI wire messages are a structured inductive `Msg`; `Msg.render`
  produces the literal command text of the corresponding Python f-string
  (numeric payloads rendered by `fmtQ`, a stand-in for Python's number
  formatting — no claim depends on the digits it produces).
* The remote instrument is a stateful fake `Device σ`: `onWrite`
  processes a transmitted message, `respond` yields the next response
  line.  Concrete fakes (scripted, echoing, stateful-lock) instantiate it.
* Python's `None` is `Option.none`; a dynamically-typed argument is a
  `PyVal`; an uncaught Python exception is a `PyErr` value in `Except`.
-/

namespace TunableLaserModel

/-- The exact unit-conversion factor `1e9` used at the nm/m boundary. -/
def q1e9 : ℚ := 1000000000

/-- A response line produced by the instrument: either text (consumed by
`_read`) or a numeric first value (consumed by `_read_number`, which in
the source parses the first ASCII value of the response line). -/
inductive Resp
  | str (s : String)
  | num (q : ℚ)
  deriving DecidableEq

/-- Stand-in rendering of a Python number into command text. -/
def fmtQ (q : ℚ) : String :=
  if q.den = 1 then toString q.num else toString q

/-- The SCPI messages the driver can transmit, one constructor per
f-string in the source, with the interpolated payload as argument. -/
inductive Msg
  | idnQ
  | wavelengthQ
  | wavelengthSet (v : ℚ)
  | wavelengthMinQ
  | wavelengthMaxQ
  | trigOutQ
  | trigOutSet (name : String)
  | sweepCyclesQ
  | sweepCyclesSet (n : Int)
  | sweepModeQ
  | sweepModeSet (name : String)
  | sweepSpeedQ
  | sweepSpeedSet (v : ℚ)
  | sweepStepSet (v : ℚ)
  | sweepStartSet (v : ℚ)
  | sweepStopSet (v : ℚ)
  | sweepStartQ
  | sweepStepQ
  | sweepStopQ
  | sweepStart
  | powerStateQ
  | powerStateSet (n : Int)
  | lockQ
  | lockSet (n : Int)
  deriving DecidableEq

/-- The literal command text of each message, mirroring the f-strings of
the source verbatim. -/
def Msg.render : Msg → String
  | .idnQ => "*IDN?"
  | .wavelengthQ => ":SOURce0:WAVelength?"
  | .wavelengthSet v => ":SOURce0:WAVelength " ++ fmtQ v ++ "NM"
  | .wavelengthMinQ => ":SOURce0:WAVelength? MIN"
  | .wavelengthMaxQ => ":SOURce0:WAVelength? MAX"
  | .trigOutQ => ":TRIG0:OUTP?"
  | .trigOutSet name => ":TRIG0:OUTP " ++ name
  | .sweepCyclesQ => ":SOURce0:WAVelength:SWEep:CYCLes?"
  | .sweepCyclesSet n => ":SOURce0:WAVelength:SWEep:CYCLes " ++ toString n
  | .sweepModeQ => ":SOURce0:WAVelength:SWEep:MODE?"
  | .sweepModeSet name => ":SOURce0:WAVelength:SWEep:MODE " ++ name
  | .sweepSpeedQ => ":SOURce0:WAVelength:SWEep:SPEed?"
  | .sweepSpeedSet v => ":SOURce0:WAVelength:SWEep:SPEed " ++ fmtQ v ++ "NM/S"
  | .sweepStepSet v => ":SOURce0:WAVelength:SWEep:STEP " ++ fmtQ v ++ "NM"
  | .sweepStartSet v => ":SOURce0:WAVelength:SWEep:STARt " ++ fmtQ v ++ "NM"
  | .sweepStopSet v => ":SOURce0:WAVelength:SWEep:STOP " ++ fmtQ v ++ "NM"
  | .sweepStartQ => ":SOURce0:WAVelength:SWEep:STARt?"
  | .sweepStepQ => ":SOURce0:WAVelength:SWEep:STEP?"
  | .sweepStopQ => ":SOURce0:WAVelength:SWEep:STOP?"
  | .sweepStart => ":SOURce0:WAVelength:SWEep STARt"
  | .powerStateQ => ":SOURce0:POWer:STATe?"
  | .powerStateSet n => ":SOURce0:POWer:STATe " ++ toString n
  | .lockQ => ":LOCK?"
  | .lockSet n => ":LOCK " ++ toString n ++ ",1234"

/-- `TriggerOutput` enumeration of the source (ordinals 0..3). -/
inductive TriggerOutput
  | DISABLED
  | STFINISHED
  | SWFINISHED
  | SWSTART
  deriving DecidableEq

/-- The symbolic member name of each `TriggerOutput` variant. -/
def TriggerOutput.name : TriggerOutput → String
  | .DISABLED => "DISABLED"
  | .STFINISHED => "STFINISHED"
  | .SWFINISHED => "SWFINISHED"
  | .SWSTART => "SWSTART"

/-- Modelled from the spec: Python `Enum.__getitem__` name lookup used by
`TriggerOutput[trig]` (inherited from the external `pymodaq` `BaseEnum`,
which is not part of this repository).  Per the spec, an unrecognized
name is "an uncaught lookup failure" (a `KeyError`); here the lookup is
a fallible `Option`, the caller turning `none` into the error. -/
def TriggerOutput.fromName (s : String) : Option TriggerOutput :=
  if s = "DISABLED" then some .DISABLED
  else if s = "STFINISHED" then some .STFINISHED
  else if s = "SWFINISHED" then some .SWFINISHED
  else if s = "SWSTART" then some .SWSTART
  else none

/-- `SweepMode` enumeration of the source (ordinals 0..2). -/
inductive SweepMode
  | STEP
  | MAN
  | CONT
  deriving DecidableEq

/-- The symbolic member name of each `SweepMode` variant. -/
def SweepMode.name : SweepMode → String
  | .STEP => "STEP"
  | .MAN => "MAN"
  | .CONT => "CONT"

/-- Modelled from the spec: name lookup `SweepMode[...]`, as for
`TriggerOutput.fromName`. -/
def SweepMode.fromName (s : String) : Option SweepMode :=
  if s = "STEP" then some .STEP
  else if s = "MAN" then some .MAN
  else if s = "CONT" then some .CONT
  else none

/-- A dynamically-typed Python value, as far as the setters with an
identity test `status is True` can observe it. -/
inductive PyVal
  | bool (b : Bool)
  | int (n : Int)
  | float (q : ℚ)
  | str (s : String)
  | none
  deriving DecidableEq

/-- Python's `x is True`: identity with the `True` singleton, so only
the boolean `True` itself passes; truthy values such as `1` do not. -/
def pyIsTrue : PyVal → Bool
  | .bool true => true
  | _ => false

/-- The Python exceptions relevant here.  `typeError` is raised by
arithmetic or `int()` on `None`; `attributeError` by `None.upper()`;
`keyError` by an enum name lookup miss.  `notConnectedError` and
`protocolError` are the spec's error kinds (never raised by the code);
they exist so that claims naming them can be stated. -/
inductive PyErr
  | typeError
  | attributeError
  | keyError (k : String)
  | notConnectedError
  | protocolError
  deriving DecidableEq

/-- Python `str.strip` with a newline argument: removes leading and
trailing newline characters, as the driver applies to `device.read()`. -/
def stripNL (s : String) : String :=
  String.mk
    (((s.toList.dropWhile fun c => c == '\n').reverse.dropWhile
      fun c => c == '\n').reverse)

/-- Python `str.upper` (on the ASCII responses involved here): map
`Char.toUpper` over the characters. -/
def strUpper (s : String) : String :=
  String.mk (s.toList.map Char.toUpper)

/-- Python `int()` on a float: truncation toward zero. -/
def pyTrunc (q : ℚ) : Int :=
  if 0 ≤ q then ⌊q⌋ else -⌊-q⌋

/-- The raw text of a response line, as `device.read()` returns it. -/
def Resp.asText : Resp → String
  | .str s => s
  | .num q => fmtQ q

/-- The first ASCII value of a response line, as
`device.read_ascii_values()[0]` parses it (`none` when the line is not
numeric). -/
def Resp.firstValue : Resp → Option ℚ
  | .str _ => Option.none
  | .num q => some q

/-- A fake remote instrument with hidden state `σ`: `onWrite` consumes a
transmitted message, `respond` produces the next response line. -/
structure Device (σ : Type) where
  onWrite : σ → Msg → σ
  respond : σ → Resp × σ

/-- The `TunableLaser` adapter state: the connection handle `device`
(carrying the fake instrument's state when open), the cached
`_wavelength` and `_idn`, and the ghost trace `sent` of every message
actually transmitted on the wire. -/
structure Laser (σ : Type) where
  device : Option σ
  wl : Option ℚ
  idn : Option String
  sent : List Msg

/-- `TunableLaser._write`: transmits iff the handle exists, silently
doing nothing otherwise. -/
def _write {σ : Type} (d : Device σ) (st : Laser σ) (m : Msg) : Laser σ :=
  match st.device with
  | Option.none => st
  | some ds =>
    { st with device := some (d.onWrite ds m), sent := st.sent ++ [m] }

/-- `TunableLaser._read`: reads a line and strips newlines iff the
handle exists, returning `None` otherwise. -/
def _read {σ : Type} (d : Device σ) (st : Laser σ) :
    Option String × Laser σ :=
  match st.device with
  | Option.none => (Option.none, st)
  | some ds =>
    let p := d.respond ds
    (some (stripNL p.1.asText), { st with device := some p.2 })

/-- `TunableLaser._read_number`: reads the first ASCII value iff the
handle exists, returning `None` otherwise. -/
def _read_number {σ : Type} (d : Device σ) (st : Laser σ) :
    Option ℚ × Laser σ :=
  match st.device with
  | Option.none => (Option.none, st)
  | some ds =>
    let p := d.respond ds
    (p.1.firstValue, { st with device := some p.2 })

/-- The `wavelength` property getter: query, convert the device reading
from meters to nanometers by `* 1e9`, cache it in `_wavelength` and
return it.  When `_read_number` yields `None`, the multiplication
`None * 1e9` raises a `TypeError`. -/
def wavelength_get {σ : Type} (d : Device σ) (st : Laser σ) :
    Except PyErr ℚ × Laser σ :=
  let st1 := _write d st .wavelengthQ
  let p := _read_number d st1
  match p.1 with
  | Option.none => (.error .typeError, p.2)
  | some q => (.ok (q * q1e9), { p.2 with wl := some (q * q1e9) })

/-- The `wavelength` property setter: write the set command with the NM
suffix, then invoke the getter (discarding its value) to refresh the
cache; returns nothing. -/
def wavelength_set {σ : Type} (d : Device σ) (st : Laser σ) (v : ℚ) :
    Except PyErr Unit × Laser σ :=
  let st1 := _write d st (.wavelengthSet v)
  let p := wavelength_get d st1
  (p.1.map fun _ => (), p.2)

/-- `get_wavelength_limits`: two independent queries (MIN then MAX),
each read returned raw — the source applies no `* 1e9` conversion
here. -/
def get_wavelength_limits {σ : Type} (d : Device σ) (st : Laser σ) :
    (Option ℚ × Option ℚ) × Laser σ :=
  let st1 := _write d st .wavelengthMinQ
  let p1 := _read_number d st1
  let st2 := _write d p1.2 .wavelengthMaxQ
  let p2 := _read_number d st2
  ((p1.1, p2.1), p2.2)

/-- The `output_trigger` property getter: query, upper-case the response
and look it up by enum member name.  `None.upper()` raises
`AttributeError`; an unknown name raises `KeyError`. -/
def output_trigger_get {σ : Type} (d : Device σ) (st : Laser σ) :
    Except PyErr TriggerOutput × Laser σ :=
  let st1 := _write d st .trigOutQ
  let p := _read d st1
  match p.1 with
  | Option.none => (.error .attributeError, p.2)
  | some s =>
    match TriggerOutput.fromName (strUpper s) with
    | some trig => (.ok trig, p.2)
    | Option.none => (.error (.keyError (strUpper s)), p.2)

/-- The `output_trigger` property setter: one write embedding the
variant's symbolic name, no confirmation read. -/
def output_trigger_set {σ : Type} (d : Device σ) (st : Laser σ)
    (trigger : TriggerOutput) : Laser σ :=
  _write d st (.trigOutSet trigger.name)

/-- The `sweep_cycles` property getter: query, parse, truncate to int. -/
def sweep_cycles_get {σ : Type} (d : Device σ) (st : Laser σ) :
    Except PyErr Int × Laser σ :=
  let st1 := _write d st .sweepCyclesQ
  let p := _read_number d st1
  match p.1 with
  | Option.none => (.error .typeError, p.2)
  | some q => (.ok (pyTrunc q), p.2)

/-- The `sweep_cycles` property setter. -/
def sweep_cycles_set {σ : Type} (d : Device σ) (st : Laser σ)
    (ncycles : Int) : Laser σ :=
  _write d st (.sweepCyclesSet ncycles)

/-- The `sweep_mode` property getter, same pattern as `output_trigger`. -/
def sweep_mode_get {σ : Type} (d : Device σ) (st : Laser σ) :
    Except PyErr SweepMode × Laser σ :=
  let st1 := _write d st .sweepModeQ
  let p := _read d st1
  match p.1 with
  | Option.none => (.error .attributeError, p.2)
  | some s =>
    match SweepMode.fromName (strUpper s) with
    | some md => (.ok md, p.2)
    | Option.none => (.error (.keyError (strUpper s)), p.2)

/-- The `sweep_mode` property setter. -/
def sweep_mode_set {σ : Type} (d : Device σ) (st : Laser σ)
    (mode : SweepMode) : Laser σ :=
  _write d st (.sweepModeSet mode.name)

/-- The `sweep_speed` property getter: query and `* 1e9`. -/
def sweep_speed_get {σ : Type} (d : Device σ) (st : Laser σ) :
    Except PyErr ℚ × Laser σ :=
  let st1 := _write d st .sweepSpeedQ
  let p := _read_number d st1
  match p.1 with
  | Option.none => (.error .typeError, p.2)
  | some q => (.ok (q * q1e9), p.2)

/-- The `sweep_speed` property setter. -/
def sweep_speed_set {σ : Type} (d : Device σ) (st : Laser σ) (speed : ℚ) :
    Laser σ :=
  _write d st (.sweepSpeedSet speed)

/-- `configure_sweep`: three set writes in the literal order step,
start, stop; then three confirmation queries (start, step, stop), each
converted by `* 1e9`; returns the confirmed `(start, stop, step)`. -/
def configure_sweep {σ : Type} (d : Device σ) (st : Laser σ)
    (start stop step : ℚ) : Except PyErr (ℚ × ℚ × ℚ) × Laser σ :=
  let sA := _write d st (.sweepStepSet step)
  let sB := _write d sA (.sweepStartSet start)
  let sC := _write d sB (.sweepStopSet stop)
  let s1 := _write d sC .sweepStartQ
  let p1 := _read_number d s1
  match p1.1 with
  | Option.none => (.error .typeError, p1.2)
  | some qStart =>
    let s2 := _write d p1.2 .sweepStepQ
    let p2 := _read_number d s2
    match p2.1 with
    | Option.none => (.error .typeError, p2.2)
    | some qStep =>
      let s3 := _write d p2.2 .sweepStopQ
      let p3 := _read_number d s3
      match p3.1 with
      | Option.none => (.error .typeError, p3.2)
      | some qStop =>
        (.ok (qStart * q1e9, qStop * q1e9, qStep * q1e9), p3.2)

/-- `start_sweep`: fire-and-forget write. -/
def start_sweep {σ : Type} (d : Device σ) (st : Laser σ) : Laser σ :=
  _write d st .sweepStart

/-- The `laser_status` property getter: `bool(int(response))`;
`int(None)` raises `TypeError`. -/
def laser_status_get {σ : Type} (d : Device σ) (st : Laser σ) :
    Except PyErr Bool × Laser σ :=
  let st1 := _write d st .powerStateQ
  let p := _read_number d st1
  match p.1 with
  | Option.none => (.error .typeError, p.2)
  | some q => (.ok (decide (pyTrunc q ≠ 0)), p.2)

/-- The `laser_status` property setter: `1 if status is True else 0`. -/
def laser_status_set {σ : Type} (d : Device σ) (st : Laser σ)
    (status : PyVal) : Laser σ :=
  _write d st (.powerStateSet (if pyIsTrue status then 1 else 0))

/-- The `locked` property getter: same boolean pattern as
`laser_status`, on the `:LOCK?` query. -/
def locked_get {σ : Type} (d : Device σ) (st : Laser σ) :
    Except PyErr Bool × Laser σ :=
  let st1 := _write d st .lockQ
  let p := _read_number d st1
  match p.1 with
  | Option.none => (.error .typeError, p.2)
  | some q => (.ok (decide (pyTrunc q ≠ 0)), p.2)

/-- The `locked` property setter: `1 if lock is True else 0`, embedded
with the hardcoded `1234` passcode literal. -/
def locked_set {σ : Type} (d : Device σ) (st : Laser σ) (lock : PyVal) :
    Laser σ :=
  _write d st (.lockSet (if pyIsTrue lock then 1 else 0))

/-- A scripted fake instrument: ignores writes, answers from a fixed
queue of response lines. -/
def scriptDev : Device (List Resp) where
  onWrite s _ := s
  respond s :=
    match s with
    | [] => (Resp.str "", [])
    | r :: rs => (r, rs)

/-- State of the sweep-echoing fake: the three sweep parameters as last
set (in nm, as transmitted), and the pending response to the last
query. -/
structure SweepSt where
  start : ℚ
  stop : ℚ
  step : ℚ
  pending : Option Resp

/-- A fake instrument for sweep configuration: stores set values and
answers each confirmation query with the stored value converted to
meters (the device-side unit). -/
def sweepDev : Device SweepSt where
  onWrite s m :=
    match m with
    | .sweepStepSet v => { s with step := v }
    | .sweepStartSet v => { s with start := v }
    | .sweepStopSet v => { s with stop := v }
    | .sweepStartQ => { s with pending := some (.num (s.start / q1e9)) }
    | .sweepStepQ => { s with pending := some (.num (s.step / q1e9)) }
    | .sweepStopQ => { s with pending := some (.num (s.stop / q1e9)) }
    | _ => s
  respond s := (s.pending.getD (.str ""), { s with pending := Option.none })

/-- State of the stateful lock fake: the lock flag and the pending
response to the last query. -/
structure LockSt where
  locked : Bool
  pending : Option Resp

/-- A stateful fake instrument for the lock flag: a lock-set command
updates the flag, a lock query answers with `1` or `0`. -/
def lockDev : Device LockSt where
  onWrite s m :=
    match m with
    | .lockSet n => { s with locked := n == 1 }
    | .lockQ => { s with pending := some (.num (if s.locked then 1 else 0)) }
    | _ => s
  respond s := (s.pending.getD (.str ""), { s with pending := Option.none })

/-- State of the wavelength-echoing fake: the current wavelength in nm
as last set, and the pending response to the last query. -/
structure WlSt where
  cur : ℚ
  pending : Option Resp

/-- A fake instrument for the wavelength round trip: a set command
stores the transmitted nm value, a query answers with meters =
value / 1e9. -/
def wlDev : Device WlSt where
  onWrite s m :=
    match m with
    | .wavelengthSet v => { s with cur := v }
    | .wavelengthQ => { s with pending := some (.num (s.cur / q1e9)) }
    | _ => s
  respond s := (s.pending.getD (.str ""), { s with pending := Option.none })

/-- Name lookup inverts the name function on every variant. -/
theorem TriggerOutput.fromName_name (t : TriggerOutput) :
    TriggerOutput.fromName t.name = some t := by
  cases t <;> rfl

/-- The `is True` identity test passes exactly on the boolean `True`. -/
theorem pyIsTrue_iff (v : PyVal) :
    pyIsTrue v = decide (v = PyVal.bool true) := by
  cases v with
  | bool b => cases b <;> rfl
  | _ => rfl

/-- C9: the low-level `_write` transmits the message iff a connection
handle exists; with no handle it returns the state unchanged (silent
no-op, no error), and consequently every adapter operation leaves the
transmission trace untouched while disconnected. -/
theorem C9_write_iff_connected (σ : Type) (d : Device σ) (m : Msg)
    (w : Option ℚ) (i : Option String) (l : List Msg) :
    (_write d ⟨Option.none, w, i, l⟩ m = ⟨Option.none, w, i, l⟩) ∧
    (∀ ds : σ, (_write d ⟨some ds, w, i, l⟩ m).sent = l ++ [m]) ∧
    ((wavelength_get d ⟨Option.none, w, i, l⟩).2.sent = l) ∧
    (∀ v, (wavelength_set d ⟨Option.none, w, i, l⟩ v).2.sent = l) ∧
    ((get_wavelength_limits d ⟨Option.none, w, i, l⟩).2.sent = l) ∧
    ((output_trigger_get d ⟨Option.none, w, i, l⟩).2.sent = l) ∧
    (∀ t, (output_trigger_set d ⟨Option.none, w, i, l⟩ t).sent = l) ∧
    ((sweep_cycles_get d ⟨Option.none, w, i, l⟩).2.sent = l) ∧
    (∀ n, (sweep_cycles_set d ⟨Option.none, w, i, l⟩ n).sent = l) ∧
    ((sweep_mode_get d ⟨Option.none, w, i, l⟩).2.sent = l) ∧
    (∀ md, (sweep_mode_set d ⟨Option.none, w, i, l⟩ md).sent = l) ∧
    ((sweep_speed_get d ⟨Option.none, w, i, l⟩).2.sent = l) ∧
    (∀ v, (sweep_speed_set d ⟨Option.none, w, i, l⟩ v).sent = l) ∧
    (∀ a b c, (configure_sweep d ⟨Option.none, w, i, l⟩ a b c).2.sent = l) ∧
    ((start_sweep d ⟨Option.none, w, i, l⟩).sent = l) ∧
    ((laser_status_get d ⟨Option.none, w, i, l⟩).2.sent = l) ∧
    (∀ v, (laser_status_set d ⟨Option.none, w, i, l⟩ v).sent = l) ∧
    ((locked_get d ⟨Option.none, w, i, l⟩).2.sent = l) ∧
    (∀ v, (locked_set d ⟨Option.none, w, i, l⟩ v).sent = l) :=
  ⟨rfl, fun _ => rfl, rfl, fun _ => rfl, rfl, rfl, fun _ => rfl, rfl,
   fun _ => rfl, rfl, fun _ => rfl, rfl, fun _ => rfl, fun _ _ _ => rfl,
   rfl, rfl, fun _ => rfl, rfl, fun _ => rfl⟩

/-- C1: `get_wavelength_limits` issues exactly the two queries (MIN
then MAX) with no caching, but returns the two device readings raw —
with a device reporting limits 1.46e-6 m and 1.64e-6 m the result is
the meter values themselves, not the nanometer values 1460 and 1640
the claim's ×1e9 boundary conversion would produce (the source omits
the `* 1e9` applied by every sibling getter). -/
theorem C1_limits_returned_raw :
    ((get_wavelength_limits scriptDev
        ⟨some [Resp.num (146 / 100000000), Resp.num (164 / 100000000)],
         Option.none, Option.none, []⟩).1
      = (some (146 / 100000000), some (164 / 100000000))) ∧
    ((get_wavelength_limits scriptDev
        ⟨some [Resp.num (146 / 100000000), Resp.num (164 / 100000000)],
         Option.none, Option.none, []⟩).2.sent
      = [Msg.wavelengthMinQ, Msg.wavelengthMaxQ]) ∧
    ((get_wavelength_limits scriptDev
        ⟨some [Resp.num (146 / 100000000), Resp.num (164 / 100000000)],
         Option.none, Option.none, []⟩).2.wl = Option.none) ∧
    ((146 / 100000000 : ℚ) ≠ (146 / 100000000) * q1e9) ∧
    ((146 / 100000000 : ℚ) * q1e9 = 1460) :=
  ⟨rfl, rfl, rfl, by norm_num [q1e9], by norm_num [q1e9]⟩

/-- C2 counterexample: on a disconnected adapter the `wavelength`
getter neither raises `NotConnectedError` nor silently returns the
`None` sentinel — it raises a `TypeError` (the `None * 1e9`
multiplication). -/
theorem C2_counterexample :
    ((wavelength_get scriptDev
        ⟨Option.none, Option.none, Option.none, []⟩).1
      = Except.error PyErr.typeError) ∧
    PyErr.typeError ≠ PyErr.notConnectedError :=
  ⟨rfl, by decide⟩

/-- C2 (amended): every property getter invoked while disconnected
deterministically raises an uncaught `TypeError` (numeric getters,
from `None` fed into arithmetic or `int()`) or `AttributeError` (enum
getters, from `None.upper()`) — never `NotConnectedError`, and never a
raise-free `None` return. -/
theorem C2_disconnected_getters_raise (σ : Type) (d : Device σ)
    (w : Option ℚ) (i : Option String) (l : List Msg) :
    ((wavelength_get d ⟨Option.none, w, i, l⟩).1
      = .error .typeError) ∧
    ((output_trigger_get d ⟨Option.none, w, i, l⟩).1
      = .error .attributeError) ∧
    ((sweep_cycles_get d ⟨Option.none, w, i, l⟩).1
      = .error .typeError) ∧
    ((sweep_mode_get d ⟨Option.none, w, i, l⟩).1
      = .error .attributeError) ∧
    ((sweep_speed_get d ⟨Option.none, w, i, l⟩).1
      = .error .typeError) ∧
    ((laser_status_get d ⟨Option.none, w, i, l⟩).1
      = .error .typeError) ∧
    ((locked_get d ⟨Option.none, w, i, l⟩).1
      = .error .typeError) ∧
    PyErr.typeError ≠ PyErr.notConnectedError ∧
    PyErr.attributeError ≠ PyErr.notConnectedError :=
  ⟨rfl, rfl, rfl, rfl, rfl, rfl, rfl, by decide, by decide⟩

/-- C3: `configure_sweep` transmits exactly the three set commands in
the literal order step, start, stop, then three query commands, and
returns the device-confirmed `(start, stop, step)` converted to
nanometers; against the echoing fake the set values come back, so
`configure_sweep 1460 1620 10` returns `(1460, 1620, 10)`. -/
theorem C3_configure_sweep (start stop step s0 t0 p0 : ℚ)
    (pend : Option Resp) (w : Option ℚ) (i : Option String)
    (l : List Msg) :
    ((configure_sweep sweepDev ⟨some ⟨s0, t0, p0, pend⟩, w, i, l⟩
        start stop step).1 = .ok (start, stop, step)) ∧
    ((configure_sweep sweepDev ⟨some ⟨s0, t0, p0, pend⟩, w, i, l⟩
        start stop step).2.sent
      = l ++ [Msg.sweepStepSet step, Msg.sweepStartSet start,
              Msg.sweepStopSet stop, Msg.sweepStartQ, Msg.sweepStepQ,
              Msg.sweepStopQ]) ∧
    ((configure_sweep sweepDev
        ⟨some ⟨s0, t0, p0, pend⟩, Option.none, Option.none, []⟩
        1460 1620 10).1 = .ok (1460, 1620, 10)) := by
  have h9 : (q1e9 : ℚ) ≠ 0 := by norm_num [q1e9]
  refine ⟨?_, ?_, ?_⟩ <;>
    simp [configure_sweep, _write, _read_number, sweepDev,
      Resp.firstValue, div_mul_cancel₀ _ h9]

/-- C4: the `wavelength` setter transmits the single set command
embedding the target value with an explicit NM suffix, then
immediately performs a wavelength get (one further query), refreshes
the cached wavelength with the device-confirmed value, and returns
nothing. -/
theorem C4_wavelength_set (v m : ℚ) (w : Option ℚ) (i : Option String)
    (l : List Msg) :
    ((wavelength_set scriptDev ⟨some [Resp.num m], w, i, l⟩ v).1
      = .ok ()) ∧
    ((wavelength_set scriptDev ⟨some [Resp.num m], w, i, l⟩ v).2.sent
      = l ++ [Msg.wavelengthSet v, Msg.wavelengthQ]) ∧
    ((wavelength_set scriptDev ⟨some [Resp.num m], w, i, l⟩ v).2.wl
      = some (m * q1e9)) ∧
    (Msg.render (Msg.wavelengthSet v)
      = ":SOURce0:WAVelength " ++ fmtQ v ++ "NM") := by
  refine ⟨rfl, ?_, rfl, rfl⟩
  simp [wavelength_set, wavelength_get, _write, _read_number, scriptDev,
    Resp.firstValue]

/-- C5 counterexample: when the instrument answers the trigger query
with text matching no variant, the getter fails with an uncaught
`KeyError` from the enum name lookup, not with a `ProtocolError`
kind. -/
theorem C5_counterexample :
    ((output_trigger_get scriptDev
        ⟨some [Resp.str "always"], Option.none, Option.none, []⟩).1
      = Except.error (PyErr.keyError "ALWAYS")) ∧
    PyErr.keyError "ALWAYS" ≠ PyErr.protocolError :=
  ⟨rfl, by decide⟩

/-- C5 (amended): the `output_trigger` getter issues the trigger query,
upper-cases the response text and parses it by symbolic name lookup;
text matching no known variant makes it fail with an uncaught
`KeyError` carrying the normalized text (not a `ProtocolError`). -/
theorem C5_trigger_get_unknown_name (s : String) (w : Option ℚ)
    (i : Option String) (l : List Msg)
    (h : TriggerOutput.fromName (strUpper (stripNL s)) = Option.none) :
    ((output_trigger_get scriptDev ⟨some [Resp.str s], w, i, l⟩).1
      = .error (.keyError (strUpper (stripNL s)))) ∧
    ((output_trigger_get scriptDev ⟨some [Resp.str s], w, i, l⟩).2.sent
      = l ++ [Msg.trigOutQ]) ∧
    (.keyError (strUpper (stripNL s)) ≠ PyErr.protocolError) := by
  refine ⟨?_, ?_, by simp⟩ <;>
    simp [output_trigger_get, _write, _read, scriptDev, Resp.asText, h]

/-- C5 witness: the amended theorem applied to the response text
"always". -/
theorem C5_trigger_get_unknown_name_witness :
    (TriggerOutput.fromName (strUpper (stripNL "always")) = Option.none) ∧
    ((output_trigger_get scriptDev
        ⟨some [Resp.str "always"], Option.none, Option.none, []⟩).1
      = .error (.keyError (strUpper (stripNL "always")))) :=
  ⟨by decide,
   (C5_trigger_get_unknown_name "always" Option.none Option.none []
     (by decide)).1⟩

/-- C6: `locked := True` transmits exactly `:LOCK 1,1234` and
`locked := False` exactly `:LOCK 0,1234`, the passcode `1234` being a
hardcoded literal of the command text; against the stateful lock fake
a subsequent get returns the last set value. -/
theorem C6_lock_roundtrip (b lk : Bool) (pend : Option Resp)
    (w : Option ℚ) (i : Option String) (l : List Msg) :
    ((locked_set lockDev ⟨some ⟨lk, pend⟩, w, i, l⟩ (PyVal.bool b)).sent
      = l ++ [Msg.lockSet (if b then 1 else 0)]) ∧
    (Msg.render (Msg.lockSet 1) = ":LOCK 1,1234") ∧
    (Msg.render (Msg.lockSet 0) = ":LOCK 0,1234") ∧
    ((locked_get lockDev
        (locked_set lockDev ⟨some ⟨lk, pend⟩, w, i, l⟩ (PyVal.bool b))).1
      = .ok b) := by
  cases b <;>
    exact ⟨rfl, rfl, rfl, rfl⟩

/-- C7: for each trigger variant, setting `output_trigger` and then
getting it over a transport that echoes the transmitted symbolic name
back in arbitrary letter case returns the same variant: the read side
upper-cases before the name lookup. -/
theorem C7_trigger_roundtrip (t : TriggerOutput) (echo : String)
    (w : Option ℚ) (i : Option String) (l : List Msg)
    (h : strUpper (stripNL echo) = t.name) :
    ((output_trigger_get scriptDev
        (output_trigger_set scriptDev ⟨some [Resp.str echo], w, i, l⟩
          t)).1 = .ok t) ∧
    ((output_trigger_get scriptDev
        (output_trigger_set scriptDev ⟨some [Resp.str echo], w, i, l⟩
          t)).2.sent
      = l ++ [Msg.trigOutSet t.name, Msg.trigOutQ]) := by
  refine ⟨?_, ?_⟩ <;>
    simp [output_trigger_set, output_trigger_get, _write, _read,
      scriptDev, Resp.asText, h, TriggerOutput.fromName_name]

/-- C7 witness: the round trip at variant `SWSTART` with the echo
"swStart". -/
theorem C7_trigger_roundtrip_witness :
    (strUpper (stripNL "swStart") = TriggerOutput.SWSTART.name) ∧
    ((output_trigger_get scriptDev
        (output_trigger_set scriptDev
          ⟨some [Resp.str "swStart"], Option.none, Option.none, []⟩
          TriggerOutput.SWSTART)).1 = .ok TriggerOutput.SWSTART) :=
  ⟨by decide,
   (C7_trigger_roundtrip TriggerOutput.SWSTART "swStart" Option.none
     Option.none [] (by decide)).1⟩

/-- C8: the `wavelength` getter issues the wavelength query, multiplies
the device response (meters) by 1e9, stores the result in the
`_wavelength` cache and returns it; over the fake that echoes
meters = v / 1e9, setting the wavelength to `v` and getting it returns
exactly `v` (rationals model the reals, so the round trip is exact —
within any rounding tolerance). -/
theorem C8_wavelength_get_roundtrip (v m c0 : ℚ) (w w2 : Option ℚ)
    (i : Option String) (l : List Msg) :
    ((wavelength_get scriptDev ⟨some [Resp.num m], w, i, l⟩).1
      = .ok (m * q1e9)) ∧
    ((wavelength_get scriptDev ⟨some [Resp.num m], w, i, l⟩).2.wl
      = some (m * q1e9)) ∧
    ((wavelength_get scriptDev ⟨some [Resp.num m], w, i, l⟩).2.sent
      = l ++ [Msg.wavelengthQ]) ∧
    ((wavelength_get wlDev
        (wavelength_set wlDev ⟨some ⟨c0, Option.none⟩, w2, i, l⟩ v).2).1
      = .ok v) := by
  have h9 : (q1e9 : ℚ) ≠ 0 := by norm_num [q1e9]
  refine ⟨rfl, rfl, ?_, ?_⟩ <;>
    simp [wavelength_set, wavelength_get, _write, _read_number,
      scriptDev, wlDev, Resp.firstValue, div_mul_cancel₀ _ h9]

/-- C10: the `laser_status` and `locked` setters transmit the flag `1`
exactly when the supplied value is the boolean `True` itself; the
identity comparison `is True` sends every other value — including the
truthy integer `1` — as `0`. -/
theorem C10_identity_comparison (σ : Type) (d : Device σ) (v : PyVal)
    (ds : σ) (w : Option ℚ) (i : Option String) (l : List Msg) :
    ((laser_status_set d ⟨some ds, w, i, l⟩ v).sent
      = l ++ [Msg.powerStateSet (if v = PyVal.bool true then 1 else 0)]) ∧
    ((locked_set d ⟨some ds, w, i, l⟩ v).sent
      = l ++ [Msg.lockSet (if v = PyVal.bool true then 1 else 0)]) ∧
    ((laser_status_set d ⟨some ds, w, i, l⟩ (PyVal.int 1)).sent
      = l ++ [Msg.powerStateSet 0]) ∧
    ((locked_set d ⟨some ds, w, i, l⟩ (PyVal.int 1)).sent
      = l ++ [Msg.lockSet 0]) := by
  refine ⟨?_, ?_, rfl, rfl⟩ <;>
    simp [laser_status_set, locked_set, _write, pyIsTrue_iff]

end TunableLaserModel
